import Mathlib

/-!
Shallow embedding of the pdf-parse serverless pipeline:
  * `Backend.processEmail` / `Backend.processItem` — src/backend/handler.js
  * `Backend.processPDFWithGemini`                 — src/backend/pdfProcessorGenAI.js
  * `InvoiceApi.handler` / `InvoiceApi.createResponse` — src/api_backend/index.js
  * `MailIngestor.handler`                         — src/unnamed/part_000 (SES email processor)

External services (S3 get/put, Gemini generateContent, JSON.parse of the model
response, DynamoDB put/get/scan) are modelled as per-invocation environment
records carrying the outcome of each call; the repository code under test is
translated into total Lean functions over those outcomes.  JavaScript values
that the code inspects are modelled by `Js.JsVal` (a JSON-like value type) and
JavaScript exceptions by `Js.JsError` (name / message / stack).
-/

namespace Js

/-- JSON-like JavaScript values, as produced by `JSON.parse` and stored in
DynamoDB items.  Numbers are modelled as integers (no claim inspects a
fractional numeric value). -/
inductive JsVal where
  | null
  | boolean (b : Bool)
  | num (n : Int)
  | str (s : String)
  | arr (elems : List JsVal)
  | obj (fields : List (String × JsVal))
deriving Repr

/-- A JavaScript object used as a record: an ordered list of
property/value pairs (JS object keys are unique; `objSet` preserves that). -/
abbrev JsObj := List (String × JsVal)

/-- A JavaScript exception: `name` ("Error", "ReferenceError", ...),
`message`, and the optional `stack` string. -/
structure JsError where
  name : String := "Error"
  message : String
  stack : Option String := none
deriving Repr

/-- Property read `o[key]` on a JS object (first matching key). -/
def objGet : JsObj → String → Option JsVal
  | [], _ => none
  | (k, v) :: rest, key => if key == k then some v else objGet rest key

/-- Property assignment `o[key] = value` on a JS object: overwrites the
existing property in place, or appends a new one. -/
def objSet : JsObj → String → JsVal → JsObj
  | [], key, value => [(key, value)]
  | (k, v) :: rest, key, value =>
      if k == key then (key, value) :: rest else (k, v) :: objSet rest key value

/-- JavaScript truthiness of a possibly-absent value (`undefined`, `null`,
`false`, `0` and `""` are falsy). -/
def jsTruthy : Option JsVal → Bool
  | none => false
  | some JsVal.null => false
  | some (JsVal.boolean b) => b
  | some (JsVal.num n) => n != 0
  | some (JsVal.str s) => !(s == "")
  | some (JsVal.arr _) => true
  | some (JsVal.obj _) => true

/-- JavaScript truthiness of a possibly-absent string (`undefined`/`null`/`""`
are falsy). -/
def jsTruthyStr : Option String → Bool
  | none => false
  | some s => !(s == "")

/-- `sub` is a prefix of `l` (character lists). -/
def leadsWith : List Char → List Char → Bool
  | [], _ => true
  | _ :: _, [] => false
  | a :: as, b :: bs => a == b && leadsWith as bs

/-- `sub` occurs contiguously somewhere in `l`. -/
def occursIn (sub : List Char) : List Char → Bool
  | [] => sub.isEmpty
  | c :: rest => leadsWith sub (c :: rest) || occursIn sub rest

/-- Model of JavaScript `s.includes(sub)`. -/
def strIncludes (s sub : String) : Bool := occursIn sub.data s.data

/-- Model of JavaScript `s.substring(0, n)`: the first `n` characters. -/
def substringTo (s : String) (n : Nat) : String := ⟨s.data.take n⟩

/-- A JS string argument that may be `null` (e.g. the defaulted
`s3Bucket = null` parameter), as a `JsVal`. -/
def jsOfOptStr : Option String → JsVal
  | none => JsVal.null
  | some s => JsVal.str s

end Js

namespace MailIngestor

open Js

/-- One SES `mail` object as inspected by the handler (`messageId` only). -/
structure SesMail where
  messageId : Option String
deriving Repr

/-- The `ses` member of an event record. -/
structure SesInfo where
  mail : Option SesMail
deriving Repr

/-- `record.s3.bucket` as inspected by the handler. -/
structure S3BucketInfo where
  name : String
deriving Repr

/-- `record.s3.object`; `key` is the S3 object key after the
`decodeURIComponent(key.replace(/\+/g, ' '))` step (genuine S3 notification
keys decode without error, so the embedding takes the decoded key as input). -/
structure S3ObjInfo where
  key : String
deriving Repr

/-- The `s3` member of an event record. -/
structure S3Info where
  bucket : Option S3BucketInfo
  object : Option S3ObjInfo
deriving Repr

/-- One record of the triggering event. -/
structure IngestRecord where
  ses : Option SesInfo
  s3 : Option S3Info
deriving Repr

/-- The triggering event: `event.Records`. -/
structure IngestEvent where
  records : List IngestRecord
deriving Repr

/-- One parsed MIME attachment as surfaced by `mailparser` (`filename` may be
absent, `contentType` as declared). Body bytes are irrelevant to the claims. -/
structure Attachment where
  filename : Option String
  contentType : Option String
deriving Repr

/-- The parsed raw email: its attachment list, in message order. -/
structure ParsedEmail where
  attachments : List Attachment
deriving Repr

/-- Per-invocation outcomes of the external calls made by the handler. -/
structure IngestEnv where
  /-- `process.env.ATTACHMENT_BUCKET_NAME` (absent or empty is falsy). -/
  envBucket : Option String
  /-- Combined outcome of `s3.getObject` on the raw email and `simpleParser`:
  either a thrown error or the parsed email. -/
  fetchParse : Except JsError ParsedEmail
  /-- Outcome of `Promise.all` over the `s3.putObject` uploads: `some e` if
  some upload rejected with `e`, `none` if all succeeded. -/
  putFails : Option JsError
  /-- `Date.now()`. -/
  now : Nat
deriving Repr

/-- A storage (S3) operation performed by the handler. -/
inductive StorageOp where
  | getOp (bucket key : String)
  | putOp (bucket key : String) (contentType : Option String)
deriving Repr, DecidableEq

/-- Is this storage operation a blob write? -/
def StorageOp.isPut : StorageOp → Bool
  | .getOp _ _ => false
  | .putOp _ _ _ => true

/-- The handler's HTTP-style return value. -/
structure IngestResponse where
  statusCode : Nat
  body : String
deriving Repr, DecidableEq

/-- `const ATTACHMENT_BUCKET_NAME = process.env.ATTACHMENT_BUCKET_NAME || '...'`. -/
def attachmentBucketName (envVar : Option String) : String :=
  match envVar with
  | some v => if v == "" then "email-attachments-bucket-dev-1749037511789" else v
  | none => "email-attachments-bucket-dev-1749037511789"

/-- The guard `!record || !record.ses || !record.ses.mail ||
!record.ses.mail.messageId`, packaged as the message id it yields when the
record passes (JS truthiness: an empty message id also fails the guard). -/
def sesMessageId (r : IngestRecord) : Option String :=
  match r.ses with
  | none => none
  | some s =>
    match s.mail with
    | none => none
    | some m =>
      match m.messageId with
      | none => none
      | some mid => if mid == "" then none else some mid

/-- The guard `!record.s3 || !record.s3.bucket || !record.s3.object`, packaged
as the (bucket, key) it yields when the record passes. -/
def s3Source (r : IngestRecord) : Option (String × String) :=
  match r.s3 with
  | none => none
  | some info =>
    match info.bucket, info.object with
    | some b, some o => some (b.name, o.key)
    | _, _ => none

/-- The PDF filter: `attachment.contentType === 'application/pdf' ||
(attachment.filename && attachment.filename.toLowerCase().endsWith('.pdf'))`. -/
def isPdfAttachment (a : Attachment) : Bool :=
  a.contentType == some "application/pdf" ||
    (match a.filename with
     | some f => !(f == "") && (f.toLower.endsWith ".pdf")
     | none => false)

/-- `const filename = attachment.filename || 'attachment-<mid>-<now>.pdf'`
(JS truthiness: an empty declared filename also falls back). -/
def attachmentFilename (a : Attachment) (messageId : String) (now : Nat) : String :=
  match a.filename with
  | some f =>
      if f == "" then "attachment-" ++ messageId ++ "-" ++ toString now ++ ".pdf" else f
  | none => "attachment-" ++ messageId ++ "-" ++ toString now ++ ".pdf"

/-- Is `c` in the class `[a-zA-Z0-9_.-]`? -/
def isSafeChar (c : Char) : Bool :=
  c.isAlphanum || c == '_' || c == '.' || c == '-'

/-- One step of `filename.replace(/[^a-zA-Z0-9_.-]/g, '_')`. -/
def sanitizeChar (c : Char) : Char :=
  if isSafeChar c then c else '_'

/-- `const safeFilename = filename.replace(/[^a-zA-Z0-9_.-]/g, '_')`. -/
def safeFilename (s : String) : String := ⟨s.data.map sanitizeChar⟩

/-- The S3 key an attachment is stored under:
`attachments/<messageId>/<safeFilename>`. -/
def attachmentKey (a : Attachment) (messageId : String) (now : Nat) : String :=
  "attachments/" ++ messageId ++ "/" ++ safeFilename (attachmentFilename a messageId now)

/-- The `uploadPromises` loop: one `putObject` per qualifying attachment, in
attachment order; non-PDF attachments are skipped. -/
def uploadOps (bucketName messageId : String) (now : Nat)
    (attachments : List Attachment) : List StorageOp :=
  attachments.filterMap (fun a =>
    if isPdfAttachment a then
      some (StorageOp.putOp bucketName (attachmentKey a messageId now) a.contentType)
    else none)

/-- The SES email processor handler of src/unnamed/part_000.  Returns the
HTTP-style response together with the list of storage operations it performed
(the raw-email `getObject`, then the attachment `putObject`s). -/
def handler (env : IngestEnv) (event : IngestEvent) : IngestResponse × List StorageOp :=
  let bucketName := attachmentBucketName env.envBucket
  if bucketName == "" then
    ({ statusCode := 500, body := "Server configuration error: Attachment bucket not set." }, [])
  else
    -- const record = event.Records[0]
    match event.records.head? with
    | none => ({ statusCode := 400, body := "Invalid SES event." }, [])
    | some r =>
      match sesMessageId r with
      | none => ({ statusCode := 400, body := "Invalid SES event." }, [])
      | some messageId =>
        match s3Source r with
        | none =>
            ({ statusCode := 400,
               body := "Lambda not triggered by expected S3 event for raw email." }, [])
        | some (sourceBucket, sourceKey) =>
          let getOps := [StorageOp.getOp sourceBucket sourceKey]
          match env.fetchParse with
          | .error e =>
              ({ statusCode := 500, body := "Error processing email: " ++ e.message }, getOps)
          | .ok email =>
            let puts := uploadOps bucketName messageId env.now email.attachments
            match env.putFails with
            | some e =>
                ({ statusCode := 500, body := "Error processing email: " ++ e.message },
                 getOps ++ puts)
            | none =>
                ({ statusCode := 200,
                   body := "Successfully processed email " ++ messageId ++ ". " ++
                     toString puts.length ++ " PDF(s) uploaded." },
                 getOps ++ puts)

end MailIngestor

namespace Backend

open Js

/-- One record of the triggering S3 batch event, reduced to the fields the
handler reads: the bucket name and the object key after the
`decodeURIComponent(key.replace(/\+/g, ' '))` step (genuine S3 notification
keys decode without error, so the embedding takes the decoded key as input). -/
structure EmailRecord where
  bucket : String
  key : String
deriving Repr

/-- The resolved value of `s3.getObject`, reduced to the fields the handler
reads: whether `Body` is a `Buffer`, and the `ContentLength` / `ContentType`
metadata used when building an error record. -/
structure S3ObjectData where
  bodyIsBuffer : Bool
  contentLength : Option Int
  contentType : Option String
deriving Repr

/-- Per-item outcomes of the external calls made while processing one record. -/
structure ItemEnv where
  /-- Outcome of `s3.getObject({Bucket, Key})`. -/
  s3Get : Except JsError S3ObjectData
  /-- Outcome of `processPDFWithGemini(pdfBuffer, bucket, key)`: a thrown
  error, or the extracted-data object it resolved with. -/
  gemini : Except JsError JsObj
  /-- Outcome of `saveToDynamo(itemToSave)` on the success path: `some e` if
  the put rejected with `e`. -/
  saveMain : Option JsError
  /-- Outcome of `saveToDynamo(<error record>)` on the failure path: `some e`
  if the put rejected with `e` (caught and only logged). -/
  saveError : Option JsError
  /-- `Date.now()`. -/
  now : Nat
  /-- `new Date().toISOString()`. -/
  nowIso : String
deriving Repr

/-- The per-item result object returned by the mapped async function:
`{success: true, key, ticketId}` or `{success: false, key, error, ticketId}`. -/
inductive ItemResult where
  | success (key : String) (ticketId : JsVal)
  | failure (key : String) (error : String) (ticketId : String)
deriving Repr

/-- The `success` flag of a per-item result. -/
def ItemResult.isSuccess : ItemResult → Bool
  | .success _ _ => true
  | .failure _ _ _ => false

/-- The error record built in the catch block of `processEmail`
(`s3data` is `s3ObjectData`, still `undefined` when `getObject` itself threw;
JS truthiness: `ContentLength` of `0` and an empty `ContentType` or empty
`stack` also yield `null`). -/
def errorRecordItem (rec : EmailRecord) (env : ItemEnv)
    (s3data : Option S3ObjectData) (e : JsError) : JsObj :=
  [("TicketId", JsVal.str ("error-" ++ rec.key ++ "-" ++ toString env.now)),
   ("Status", JsVal.str "Error-ProcessingFailed"),
   ("S3Bucket", JsVal.str rec.bucket),
   ("S3Key", JsVal.str rec.key),
   ("ErrorDetails", JsVal.str e.message),
   ("ErrorStack",
     match e.stack with
     | some st => if st == "" then JsVal.null else JsVal.str (substringTo st 1000)
     | none => JsVal.null),
   ("FileSize",
     match s3data with
     | some d =>
       (match d.contentLength with
        | some n => if n == 0 then JsVal.null else JsVal.num n
        | none => JsVal.null)
     | none => JsVal.null),
   ("FileContentType",
     match s3data with
     | some d =>
       (match d.contentType with
        | some ct => if ct == "" then JsVal.null else JsVal.str ct
        | none => JsVal.null)
     | none => JsVal.null),
   ("Timestamp", JsVal.str env.nowIso)]

/-- The catch block of the mapped async function: logs, attempts to save the
error record (its own failure `env.saveError` is caught and only logged), and
returns the failure result.  `prior` is the list of DynamoDB writes already
attempted before the throw. -/
def failOutcome (rec : EmailRecord) (env : ItemEnv)
    (s3data : Option S3ObjectData) (e : JsError) (prior : List JsObj) :
    ItemResult × List JsObj :=
  (ItemResult.failure rec.key e.message ("error-" ++ rec.key ++ "-" ++ toString env.now),
   prior ++ [errorRecordItem rec env s3data e])

/-- Processing of one S3 record by the mapped async function in
`processEmail`: fetch the object, require a `Buffer` body, extract with
Gemini, build `itemToSave` with its `TicketId` (`extractedData.invoiceId ||
"fallback-<key>-<now>"`), and save it; any throw lands in the catch block.
Returns the per-item result together with the `saveToDynamo` writes attempted
for this item, in order. -/
def processItem (rec : EmailRecord) (env : ItemEnv) : ItemResult × List JsObj :=
  match env.s3Get with
  | .error e => failOutcome rec env none e []
  | .ok d =>
    if !d.bodyIsBuffer then
      failOutcome rec env (some d)
        { name := "Error", message := "S3 object body is not a Buffer.", stack := none } []
    else
      match env.gemini with
      | .error e => failOutcome rec env (some d) e []
      | .ok extractedData =>
        let ticketVal :=
          if jsTruthy (objGet extractedData "invoiceId") then
            (objGet extractedData "invoiceId").getD JsVal.null
          else
            JsVal.str ("fallback-" ++ rec.key ++ "-" ++ toString env.now)
        let itemToSave := objSet extractedData "TicketId" ticketVal
        match env.saveMain with
        | some e => failOutcome rec env (some d) e [itemToSave]
        | none => (ItemResult.success rec.key ticketVal, [itemToSave])

/-- Does the per-item pipeline succeed for this environment (no stage threw)? -/
def itemSucceeds (env : ItemEnv) : Bool :=
  match env.s3Get with
  | .error _ => false
  | .ok d =>
    d.bodyIsBuffer &&
      (match env.gemini with
       | .error _ => false
       | .ok _ => env.saveMain.isNone)

/-- Does the item fail at the fetch or extraction stage (before any
`saveToDynamo(itemToSave)` attempt)? -/
def fetchOrExtractFails (env : ItemEnv) : Bool :=
  match env.s3Get with
  | .error _ => true
  | .ok d =>
    !d.bodyIsBuffer ||
      (match env.gemini with
       | .error _ => true
       | .ok _ => false)

/-- The batch response `{statusCode: 200, body: {message, results}}`. -/
structure BatchResponse where
  statusCode : Nat
  message : String
  results : List ItemResult
deriving Repr

/-- `processEmail` of src/backend/handler.js over a batch event.  Each element
of `batch` is one `event.Records` entry paired with the outcomes of the
external calls its async function makes.  Every mapped promise resolves (its
body is wrapped in try/catch that returns a result object), so `Promise.all`
resolves and the handler returns status 200 with all per-item results; the
outer catch block is unreachable.  The second component collects the DynamoDB
writes attempted, item by item (the items run concurrently; no claim concerns
cross-item write order). -/
def processEmail (batch : List (EmailRecord × ItemEnv)) : BatchResponse × List JsObj :=
  let outs := batch.map (fun p => processItem p.1 p.2)
  ({ statusCode := 200, message := "Processing completed.",
     results := outs.map Prod.fst },
   (outs.map Prod.snd).flatten)

/-- One candidate's `content.parts` entry (the handler only checks presence
and count). -/
structure GeminiPart where
  dummy : Unit := ()
deriving Repr

/-- `candidates[i].content` as inspected by the handler. -/
structure GeminiContent where
  parts : Option (List GeminiPart)
deriving Repr

/-- One element of `response.candidates`. -/
structure GeminiCandidate where
  content : Option GeminiContent
deriving Repr

/-- `result.response` as inspected by the handler, plus the string that
`response.text()` returns. -/
structure GeminiResponse where
  candidates : Option (List GeminiCandidate)
  text : String
deriving Repr

/-- The guard `!response || !response.candidates || response.candidates.length
=== 0 || !response.candidates[0].content || !response.candidates[0].content.parts
|| response.candidates[0].content.parts.length === 0`, as a validity test. -/
def responseStructureValid (resp : Option GeminiResponse) : Bool :=
  match resp with
  | none => false
  | some r =>
    match r.candidates with
    | none => false
    | some [] => false
    | some (c :: _) =>
      match c.content with
      | none => false
      | some content =>
        match content.parts with
        | none => false
        | some [] => false
        | some (_ :: _) => true

/-- Per-invocation outcomes of the external calls made by
`processPDFWithGemini`. -/
structure GeminiEnv where
  /-- Is `modelInstance` non-null (API key present so the client was built)? -/
  modelConfigured : Bool
  /-- Outcome of `modelInstance.generateContent(requestPayload)`: a rejected
  promise, or the `result.response` value (possibly null). -/
  generate : Except JsError (Option GeminiResponse)
  /-- Outcome of `JSON.parse(response.text())`: a thrown `SyntaxError`, or the
  decoded object. -/
  parsed : Except JsError JsObj
  /-- `new Date().toISOString()`. -/
  nowIso : String
deriving Repr

/-- The `ReferenceError` raised by evaluating the identifier `result` inside
the catch block of `processPDFWithGemini`: `result` is `const`-declared inside
the try block, which is a sibling scope of the catch block, so the reference
is unresolved there. -/
def resultNotDefined : JsError :=
  { name := "ReferenceError", message := "result is not defined", stack := none }

/-- The catch block of `processPDFWithGemini`.  Its condition is
`err.message.includes("SAFETY") || (result && result.response &&
result.response.promptFeedback && result.response.promptFeedback.blockReason)`:
  * if the message does not contain "SAFETY", evaluating the second operand
    dereferences `result`, which is not in scope here, raising a
    `ReferenceError` out of the catch block;
  * if it does, the branch is entered and `console.error(...,
    result?.response?.promptFeedback)` dereferences `result` first, raising
    the same `ReferenceError` before the intended `throw` is reached.
Either way the error that escapes is the `ReferenceError`, never the intended
wrapped message of lines 191/193 of the source. -/
def geminiCatch (err : JsError) : JsError :=
  if strIncludes err.message "SAFETY" then resultNotDefined
  else resultNotDefined

/-- `processPDFWithGemini(pdfBuffer, s3Bucket, s3Key)` of
src/backend/pdfProcessorGenAI.js (the PDF bytes only flow into the request
payload, which is opaque to every claim; `s3Bucket`/`s3Key` default to null). -/
def processPDFWithGemini (env : GeminiEnv) (s3Bucket s3Key : Option String) :
    Except JsError JsObj :=
  if !env.modelConfigured then
    Except.error
      { name := "Error",
        message := "Gemini model is not initialized. Check API Key and SDK setup.",
        stack := none }
  else
    match env.generate with
    | .error err => Except.error (geminiCatch err)
    | .ok respOpt =>
      if !responseStructureValid respOpt then
        Except.error (geminiCatch
          { name := "Error",
            message := "Received an invalid or empty response structure from Gemini API.",
            stack := none })
      else
        match env.parsed with
        | .error _ =>
          Except.error (geminiCatch
            { name := "Error",
              message := "Failed to parse JSON response from Gemini AI.",
              stack := none })
        | .ok extractedData =>
          let d1 := objSet extractedData "S3Bucket" (jsOfOptStr s3Bucket)
          let d2 := objSet d1 "S3Key" (jsOfOptStr s3Key)
          let d3 := objSet d2 "processingEngine" (JsVal.str "Gemini-1.5-Flash-Latest")
          let d4 := objSet d3 "extractionTimestamp" (JsVal.str env.nowIso)
          Except.ok d4

end Backend

namespace InvoiceApi

open Js

/-- The body value handed to `createResponse` (the source serializes it with
`JSON.stringify`; the embedding keeps it structured, one constructor per body
shape the handler builds). -/
inductive ApiBody where
  | message (text : String)
  | errorMsg (error : String) (details : Option String)
  | record (item : JsObj)
  | listing (items : List JsObj) (count : Nat) (text : String)
deriving Repr

/-- The record carried by a response body, if any. -/
def ApiBody.recordOf : ApiBody → Option JsObj
  | .record item => some item
  | _ => none

/-- An API Gateway response as built by `createResponse`. -/
structure ApiResponse where
  statusCode : Nat
  headers : List (String × String)
  body : ApiBody
deriving Repr

/-- The fixed header set of `createResponse`. -/
def standardHeaders : List (String × String) :=
  [("Content-Type", "application/json"),
   ("Access-Control-Allow-Origin", "*"),
   ("Access-Control-Allow-Methods", "GET,OPTIONS"),
   ("Access-Control-Allow-Headers",
    "Content-Type,X-Amz-Date,Authorization,X-Api-Key,X-Amz-Security-Token")]

/-- `createResponse(statusCode, body)` of src/api_backend/index.js: the single
helper every handler branch returns through. -/
def createResponse (statusCode : Nat) (body : ApiBody) : ApiResponse :=
  { statusCode := statusCode, headers := standardHeaders, body := body }

/-- `event.pathParameters` as inspected by the handler. -/
structure PathParams where
  ticketId : Option String
deriving Repr

/-- `event.queryStringParameters` as inspected by the handler. -/
structure QueryParams where
  list : Option String
deriving Repr

/-- The API Gateway event, reduced to the fields the handler reads. -/
structure ApiEvent where
  httpMethod : String
  path : String
  pathParameters : Option PathParams
  queryStringParameters : Option QueryParams
deriving Repr

/-- The guard `event.pathParameters && event.pathParameters.ticketId`,
packaged as the ticket id it yields when truthy (an empty id is falsy). -/
def ticketIdParam (e : ApiEvent) : Option String :=
  match e.pathParameters with
  | none => none
  | some pp =>
    match pp.ticketId with
    | none => none
    | some t => if t == "" then none else some t

/-- The condition `path === '/invoices' || (event.queryStringParameters &&
event.queryStringParameters.list === 'all')`. -/
def wantsListAll (e : ApiEvent) : Bool :=
  e.path == "/invoices" ||
    (match e.queryStringParameters with
     | some q => q.list == some "all"
     | none => false)

/-- Does this DynamoDB item carry the given string `TicketId`? -/
def isRecordFor (id : String) (r : JsObj) : Bool :=
  match objGet r "TicketId" with
  | some (JsVal.str s) => s == id
  | _ => false

/-- `db.get({TableName, Key: {TicketId}})`: the item stored under that
partition-key value, if any (the table is keyed by `TicketId`, so at most one
item matches; the embedding takes the first). -/
def dynamoGet (table : List JsObj) (id : String) : Option JsObj :=
  table.find? (isRecordFor id)

/-- The DynamoDB state and per-invocation call outcomes seen by the handler. -/
structure DbEnv where
  /-- The items of the invoice table. -/
  table : List JsObj
  /-- `some e` if the `db.get` call itself rejects with `e`. -/
  getFails : Option JsError
  /-- `some e` if the `db.scan` call itself rejects with `e`. -/
  scanFails : Option JsError
deriving Repr

/-- The API handler of src/api_backend/index.js: CORS preflight, method
check, lookup-by-id, list-all, bad-request, and the catch-all 500 — every
branch returns through `createResponse`. -/
def handler (env : DbEnv) (event : ApiEvent) : ApiResponse :=
  if event.httpMethod == "OPTIONS" then
    createResponse 200 (ApiBody.message "CORS preflight successful")
  else if !(event.httpMethod == "GET") then
    createResponse 405 (ApiBody.errorMsg ("Unsupported method: " ++ event.httpMethod) none)
  else
    match ticketIdParam event with
    | some ticketId =>
      (match env.getFails with
       | some e => createResponse 500 (ApiBody.errorMsg "Internal server error." (some e.message))
       | none =>
         match dynamoGet env.table ticketId with
         | some item => createResponse 200 (ApiBody.record item)
         | none =>
           createResponse 404
             (ApiBody.errorMsg ("Invoice with TicketId " ++ ticketId ++ " not found.") none))
    | none =>
      if wantsListAll event then
        match env.scanFails with
        | some e => createResponse 500 (ApiBody.errorMsg "Internal server error." (some e.message))
        | none =>
          createResponse 200
            (ApiBody.listing env.table env.table.length
              "Full scan executed. Implement pagination for production.")
      else
        createResponse 400
          (ApiBody.errorMsg
            "Invalid request path or parameters. Try /invoices/\x7bticketId\x7d or /invoices?list=all"
            none)

end InvoiceApi

/-! ## Helper lemmas -/

theorem objGet_objSet_self (o : Js.JsObj) (k : String) (v : Js.JsVal) :
    Js.objGet (Js.objSet o k v) k = some v := by
  induction o with
  | nil => simp [Js.objSet, Js.objGet]
  | cons hd tl ih =>
    obtain ⟨hk, hv⟩ := hd
    by_cases h : hk = k
    · subst h; simp [Js.objSet, Js.objGet]
    · simp [Js.objSet, Js.objGet, h, Ne.symm h, ih]

theorem objGet_objSet_other (o : Js.JsObj) (k : String) (v : Js.JsVal) (k' : String)
    (hne : k' ≠ k) : Js.objGet (Js.objSet o k v) k' = Js.objGet o k' := by
  induction o with
  | nil => simp [Js.objSet, Js.objGet, hne]
  | cons hd tl ih =>
    obtain ⟨hk, hv⟩ := hd
    by_cases h : hk = k
    · subst h; simp [Js.objSet, Js.objGet, hne]
    · by_cases h2 : k' = hk
      · subst h2; simp [Js.objSet, Js.objGet, h]
      · simp [Js.objSet, Js.objGet, h, h2, ih]

theorem substringTo_length_le (s : String) (n : Nat) : (Js.substringTo s n).length ≤ n := by
  show (s.data.take n).length ≤ n
  simp [List.length_take]

theorem string_append_data (a b : String) : (a ++ b).data = a.data ++ b.data := by
  cases a; cases b; rfl

theorem leadsWith_append (l m : List Char) : Js.leadsWith l (l ++ m) = true := by
  induction l with
  | nil => rfl
  | cons c cs ih => simp [Js.leadsWith, ih]

theorem occursIn_mid (a sub b : List Char) : Js.occursIn sub (a ++ (sub ++ b)) = true := by
  induction a with
  | nil =>
    cases sub with
    | nil =>
      cases b with
      | nil => rfl
      | cons c cs => simp [Js.occursIn, Js.leadsWith]
    | cons c cs =>
      simp only [List.nil_append, Js.occursIn, Bool.or_eq_true]
      exact Or.inl (leadsWith_append (c :: cs) b)
  | cons c cs ih => simp [Js.occursIn, ih]

theorem length_filterMap_ite {α β : Type} (p : α → Bool) (g : α → β) (l : List α) :
    (l.filterMap (fun a => if p a then some (g a) else none)).length
      = (l.filter p).length := by
  induction l with
  | nil => rfl
  | cons a l ih =>
    by_cases h : p a <;> simp [List.filterMap_cons, List.filter_cons, h, ih]

theorem attachmentBucketName_ne (e : Option String) :
    (MailIngestor.attachmentBucketName e == "") = false := by
  cases e with
  | none => decide
  | some v =>
    by_cases h : v == ""
    · simp [MailIngestor.attachmentBucketName, h]
    · simp [MailIngestor.attachmentBucketName, h]

theorem sanitizeChar_idem (c : Char) :
    MailIngestor.sanitizeChar (MailIngestor.sanitizeChar c) = MailIngestor.sanitizeChar c := by
  by_cases h : MailIngestor.isSafeChar c
  · simp [MailIngestor.sanitizeChar, h]
  · simp [MailIngestor.sanitizeChar, h]

theorem error_prefix_ne_empty (k ts : String) : ("error-" ++ k ++ "-" ++ ts) ≠ "" := by
  intro h
  have h2 := congrArg String.length h
  rw [String.length_append, String.length_append, String.length_append] at h2
  have e6 : ("error-" : String).length = 6 := rfl
  have e0 : ("" : String).length = 0 := rfl
  rw [e6, e0] at h2
  omega

theorem errorRecordItem_stack (rec : Backend.EmailRecord) (env : Backend.ItemEnv)
    (s3d : Option Backend.S3ObjectData) (e : Js.JsError) (v : Js.JsVal)
    (hv : Js.objGet (Backend.errorRecordItem rec env s3d e) "ErrorStack" = some v) :
    v = Js.JsVal.null ∨ ∃ st, v = Js.JsVal.str st ∧ st.length ≤ 1000 := by
  obtain ⟨nm, msgE, stk⟩ := e
  cases stk with
  | none =>
    have hrepr : Js.objGet (Backend.errorRecordItem rec env s3d ⟨nm, msgE, none⟩) "ErrorStack"
        = some Js.JsVal.null := rfl
    rw [hrepr] at hv
    exact Or.inl (Option.some.inj hv).symm
  | some st =>
    have hrepr : Js.objGet (Backend.errorRecordItem rec env s3d ⟨nm, msgE, some st⟩) "ErrorStack"
        = some (if st == "" then Js.JsVal.null
                else Js.JsVal.str (Js.substringTo st 1000)) := rfl
    rw [hrepr] at hv
    by_cases hse : (st == "") = true
    · rw [if_pos hse] at hv
      exact Or.inl (Option.some.inj hv).symm
    · rw [if_neg hse] at hv
      exact Or.inr ⟨Js.substringTo st 1000, (Option.some.inj hv).symm,
        substringTo_length_le st 1000⟩

/-! ## Claim theorems -/

/-- C7: Filename sanitization (replacing every character outside
`[A-Za-z0-9_.-]` with `_`) is idempotent: for every string `s`,
`safeFilename (safeFilename s) = safeFilename s`. -/
theorem c7_sanitize_idempotent (s : String) :
    MailIngestor.safeFilename (MailIngestor.safeFilename s) = MailIngestor.safeFilename s := by
  show (⟨((⟨s.data.map MailIngestor.sanitizeChar⟩ : String)).data.map MailIngestor.sanitizeChar⟩ : String)
      = ⟨s.data.map MailIngestor.sanitizeChar⟩
  have hd : ((⟨s.data.map MailIngestor.sanitizeChar⟩ : String)).data
      = s.data.map MailIngestor.sanitizeChar := rfl
  rw [hd, List.map_map]
  have hf : (MailIngestor.sanitizeChar ∘ MailIngestor.sanitizeChar) = MailIngestor.sanitizeChar :=
    funext sanitizeChar_idem
  rw [hf]

/-- C9: every response produced by the Query Service handler — success,
not-found, bad-request, method-not-allowed, CORS preflight, and server-error
alike — is built by the single `createResponse` helper, and therefore carries
the fixed header set (Content-Type, Access-Control-Allow-Origin,
Access-Control-Allow-Methods, Access-Control-Allow-Headers) and a
JSON-serialized body (`createResponse` applies `JSON.stringify` to its body
argument). -/
theorem c9_all_responses_through_createResponse (env : InvoiceApi.DbEnv)
    (event : InvoiceApi.ApiEvent) :
    (∃ sc b, InvoiceApi.handler env event = InvoiceApi.createResponse sc b) ∧
    (InvoiceApi.handler env event).headers = InvoiceApi.standardHeaders := by
  have hmain : ∃ sc b, InvoiceApi.handler env event = InvoiceApi.createResponse sc b := by
    unfold InvoiceApi.handler
    repeat' split
    all_goals exact ⟨_, _, rfl⟩
  refine ⟨hmain, ?_⟩
  obtain ⟨sc, b, hb⟩ := hmain
  rw [hb]
  rfl

/-- C10: for every triggering event with at least one record, the Mail
Ingestor reads only `event.Records[0]` — its whole outcome is invariant under
replacing every further record of the event, for well-formed and malformed
first records alike; and when the first record lacks the expected SES
message-id structure or the expected S3 object structure, it returns a 400
client-error response having performed no storage operation. -/
theorem c10_first_record_only (env : MailIngestor.IngestEnv)
    (r : MailIngestor.IngestRecord) (rest rext : List MailIngestor.IngestRecord) :
    MailIngestor.handler env ⟨r :: rest⟩ = MailIngestor.handler env ⟨r :: rext⟩ ∧
    (MailIngestor.sesMessageId r = none ∨ MailIngestor.s3Source r = none →
      (MailIngestor.handler env ⟨r :: rest⟩).1.statusCode = 400 ∧
      (MailIngestor.handler env ⟨r :: rest⟩).2 = []) := by
  refine ⟨rfl, ?_⟩
  intro h
  cases h with
  | inl hs => simp [MailIngestor.handler, attachmentBucketName_ne, hs]
  | inr hs =>
    cases hm : MailIngestor.sesMessageId r with
    | none => simp [MailIngestor.handler, attachmentBucketName_ne, hm]
    | some mid => simp [MailIngestor.handler, attachmentBucketName_ne, hm, hs]

/-- Witness for C10 at a concrete event: a first record with no `ses`
member, followed by a well-formed second record that is ignored. -/
theorem c10_first_record_only_witness :
    MailIngestor.handler
        { envBucket := none, fetchParse := Except.ok ⟨[]⟩, putFails := none, now := 7 }
        ⟨[{ ses := none, s3 := none },
          { ses := some ⟨some ⟨some "M2"⟩⟩,
            s3 := some ⟨some ⟨"rawBucket"⟩, some ⟨"rawKey"⟩⟩ }]⟩
      = MailIngestor.handler
          { envBucket := none, fetchParse := Except.ok ⟨[]⟩, putFails := none, now := 7 }
          ⟨[{ ses := none, s3 := none }]⟩ ∧
    (MailIngestor.handler
        { envBucket := none, fetchParse := Except.ok ⟨[]⟩, putFails := none, now := 7 }
        ⟨[{ ses := none, s3 := none },
          { ses := some ⟨some ⟨some "M2"⟩⟩,
            s3 := some ⟨some ⟨"rawBucket"⟩, some ⟨"rawKey"⟩⟩ }]⟩).1.statusCode = 400 ∧
    (MailIngestor.handler
        { envBucket := none, fetchParse := Except.ok ⟨[]⟩, putFails := none, now := 7 }
        ⟨[{ ses := none, s3 := none },
          { ses := some ⟨some ⟨some "M2"⟩⟩,
            s3 := some ⟨some ⟨"rawBucket"⟩, some ⟨"rawKey"⟩⟩ }]⟩).2 = [] :=
  ⟨(c10_first_record_only
      { envBucket := none, fetchParse := Except.ok ⟨[]⟩, putFails := none, now := 7 }
      { ses := none, s3 := none }
      [{ ses := some ⟨some ⟨some "M2"⟩⟩, s3 := some ⟨some ⟨"rawBucket"⟩, some ⟨"rawKey"⟩⟩ }]
      []).1,
   (c10_first_record_only
      { envBucket := none, fetchParse := Except.ok ⟨[]⟩, putFails := none, now := 7 }
      { ses := none, s3 := none }
      [{ ses := some ⟨some ⟨some "M2"⟩⟩, s3 := some ⟨some ⟨"rawBucket"⟩, some ⟨"rawKey"⟩⟩ }]
      []).2 (Or.inl rfl)⟩

/-- C1: for every triggering batch event, `processEmail` attempts every item
independently (result `i` is exactly `processItem` of item `i`), collects one
outcome per item before returning, marks an item as success exactly when none
of its stages threw, and itself returns a handled-batch result with status 200
— in particular also when some items fail. -/
theorem c1_batch_isolation (batch : List (Backend.EmailRecord × Backend.ItemEnv)) :
    (Backend.processEmail batch).1.statusCode = 200 ∧
    (Backend.processEmail batch).1.results.length = batch.length ∧
    (Backend.processEmail batch).1.results
      = batch.map (fun p => (Backend.processItem p.1 p.2).1) ∧
    (∀ rec env, (Backend.processItem rec env).1.isSuccess = Backend.itemSucceeds env) := by
  refine ⟨rfl, by simp [Backend.processEmail], by simp [Backend.processEmail], ?_⟩
  intro rec env
  cases hs : env.s3Get with
  | error e =>
    simp [Backend.processItem, Backend.itemSucceeds, Backend.failOutcome,
      Backend.ItemResult.isSuccess, hs]
  | ok d =>
    by_cases hb : d.bodyIsBuffer
    · cases hg : env.gemini with
      | error e =>
        simp [Backend.processItem, Backend.itemSucceeds, Backend.failOutcome,
          Backend.ItemResult.isSuccess, hs, hb, hg]
      | ok ex =>
        cases hm : env.saveMain with
        | none =>
          simp [Backend.processItem, Backend.itemSucceeds,
            Backend.ItemResult.isSuccess, hs, hb, hg, hm]
        | some e =>
          simp [Backend.processItem, Backend.itemSucceeds, Backend.failOutcome,
            Backend.ItemResult.isSuccess, hs, hb, hg, hm]
    · simp [Backend.processItem, Backend.itemSucceeds, Backend.failOutcome,
        Backend.ItemResult.isSuccess, hs, hb]

/-- C5: for a GET lookup-by-id request with a (truthy) ticketId path
parameter, when no record with that `TicketId` is in the table the handler
returns 404 with no record in the body, and when such a record is present it
returns exactly `createResponse 200` of that record. -/
theorem c5_lookup_by_id (env : InvoiceApi.DbEnv) (event : InvoiceApi.ApiEvent) (t : String)
    (hm : event.httpMethod = "GET") (ht : InvoiceApi.ticketIdParam event = some t)
    (hg : env.getFails = none) :
    (InvoiceApi.dynamoGet env.table t = none →
      (InvoiceApi.handler env event).statusCode = 404 ∧
      (InvoiceApi.handler env event).body.recordOf = none) ∧
    (∀ r, InvoiceApi.dynamoGet env.table t = some r →
      InvoiceApi.handler env event
        = InvoiceApi.createResponse 200 (InvoiceApi.ApiBody.record r)) := by
  constructor
  · intro hnone
    simp [InvoiceApi.handler, hm, ht, hg, hnone, InvoiceApi.createResponse,
      InvoiceApi.ApiBody.recordOf]
  · intro r hr
    simp [InvoiceApi.handler, hm, ht, hg, hr]

/-- Witness for C5 at a concrete table and request: a present id returns
exactly the stored record. -/
theorem c5_lookup_by_id_witness :
    InvoiceApi.handler
        { table := [[("TicketId", Js.JsVal.str "INV-42"), ("grandTotal", Js.JsVal.num 100)]],
          getFails := none, scanFails := none }
        { httpMethod := "GET", path := "/invoices/INV-42",
          pathParameters := some ⟨some "INV-42"⟩, queryStringParameters := none }
      = InvoiceApi.createResponse 200
          (InvoiceApi.ApiBody.record
            [("TicketId", Js.JsVal.str "INV-42"), ("grandTotal", Js.JsVal.num 100)]) :=
  (c5_lookup_by_id
      { table := [[("TicketId", Js.JsVal.str "INV-42"), ("grandTotal", Js.JsVal.num 100)]],
        getFails := none, scanFails := none }
      { httpMethod := "GET", path := "/invoices/INV-42",
        pathParameters := some ⟨some "INV-42"⟩, queryStringParameters := none }
      "INV-42" rfl rfl rfl).2
    [("TicketId", Js.JsVal.str "INV-42"), ("grandTotal", Js.JsVal.num 100)] rfl

/-- C8: on successful extraction, `processPDFWithGemini` returns the
JSON-decoded object unchanged except for the four fields `S3Bucket`, `S3Key`,
`processingEngine` and `extractionTimestamp` that it sets; it never assigns
`TicketId`; and it still returns the object (only logging a warning) when the
decoded object lacks `invoiceId` — no hypothesis below constrains
`invoiceId`. -/
theorem c8_gemini_success_frame (env : Backend.GeminiEnv) (b k : Option String)
    (obj : Js.JsObj) (resp : Option Backend.GeminiResponse)
    (hm : env.modelConfigured = true)
    (hg : env.generate = Except.ok resp)
    (hv : Backend.responseStructureValid resp = true)
    (hp : env.parsed = Except.ok obj) :
    ∃ r, Backend.processPDFWithGemini env b k = Except.ok r ∧
      Js.objGet r "S3Bucket" = some (Js.jsOfOptStr b) ∧
      Js.objGet r "S3Key" = some (Js.jsOfOptStr k) ∧
      Js.objGet r "processingEngine" = some (Js.JsVal.str "Gemini-1.5-Flash-Latest") ∧
      Js.objGet r "extractionTimestamp" = some (Js.JsVal.str env.nowIso) ∧
      Js.objGet r "TicketId" = Js.objGet obj "TicketId" ∧
      (∀ key, key ≠ "S3Bucket" → key ≠ "S3Key" → key ≠ "processingEngine" →
        key ≠ "extractionTimestamp" → Js.objGet r key = Js.objGet obj key) := by
  refine ⟨Js.objSet (Js.objSet (Js.objSet (Js.objSet obj "S3Bucket" (Js.jsOfOptStr b))
      "S3Key" (Js.jsOfOptStr k)) "processingEngine"
      (Js.JsVal.str "Gemini-1.5-Flash-Latest")) "extractionTimestamp"
      (Js.JsVal.str env.nowIso), ?_, ?_, ?_, ?_, ?_, ?_, ?_⟩
  · simp [Backend.processPDFWithGemini, hm, hg, hv, hp]
  · rw [objGet_objSet_other _ _ _ _ (by decide), objGet_objSet_other _ _ _ _ (by decide),
      objGet_objSet_other _ _ _ _ (by decide), objGet_objSet_self]
  · rw [objGet_objSet_other _ _ _ _ (by decide), objGet_objSet_other _ _ _ _ (by decide),
      objGet_objSet_self]
  · rw [objGet_objSet_other _ _ _ _ (by decide), objGet_objSet_self]
  · rw [objGet_objSet_self]
  · rw [objGet_objSet_other _ _ _ _ (by decide), objGet_objSet_other _ _ _ _ (by decide),
      objGet_objSet_other _ _ _ _ (by decide), objGet_objSet_other _ _ _ _ (by decide)]
  · intro key h1 h2 h3 h4
    rw [objGet_objSet_other _ _ _ _ h4, objGet_objSet_other _ _ _ _ h3,
      objGet_objSet_other _ _ _ _ h2, objGet_objSet_other _ _ _ _ h1]

/-- Witness for C8 at a concrete successful extraction whose decoded object
lacks `invoiceId` and carries no `TicketId`. -/
theorem c8_gemini_success_frame_witness :
    ∃ r, Backend.processPDFWithGemini
        { modelConfigured := true,
          generate := Except.ok (some { candidates := some [{ content := some { parts := some [⟨()⟩] } }],
                                        text := "x" }),
          parsed := Except.ok [("grandTotal", Js.JsVal.num 100)],
          nowIso := "2026-01-01T00:00:00Z" }
        (some "pdf-bucket") (some "inv.pdf") = Except.ok r ∧
      Js.objGet r "S3Bucket" = some (Js.jsOfOptStr (some "pdf-bucket")) ∧
      Js.objGet r "S3Key" = some (Js.jsOfOptStr (some "inv.pdf")) ∧
      Js.objGet r "processingEngine" = some (Js.JsVal.str "Gemini-1.5-Flash-Latest") ∧
      Js.objGet r "extractionTimestamp" = some (Js.JsVal.str "2026-01-01T00:00:00Z") ∧
      Js.objGet r "TicketId" = Js.objGet [("grandTotal", Js.JsVal.num 100)] "TicketId" ∧
      (∀ key, key ≠ "S3Bucket" → key ≠ "S3Key" → key ≠ "processingEngine" →
        key ≠ "extractionTimestamp" →
        Js.objGet r key = Js.objGet [("grandTotal", Js.JsVal.num 100)] key) :=
  c8_gemini_success_frame
    { modelConfigured := true,
      generate := Except.ok (some { candidates := some [{ content := some { parts := some [⟨()⟩] } }],
                                    text := "x" }),
      parsed := Except.ok [("grandTotal", Js.JsVal.num 100)],
      nowIso := "2026-01-01T00:00:00Z" }
    (some "pdf-bucket") (some "inv.pdf")
    [("grandTotal", Js.JsVal.num 100)]
    (some { candidates := some [{ content := some { parts := some [⟨()⟩] } }], text := "x" })
    rfl rfl rfl rfl

/-- C2: for every successfully extracted and persisted item, the persisted
record's `TicketId` equals the extracted `invoiceId` when that field is
present and truthy (in particular any present, non-empty string), and
otherwise equals `fallback-<key>-<timestamp>`, a string that contains the
source object key. -/
theorem c2_ticketid_invoice_or_fallback (rec : Backend.EmailRecord) (env : Backend.ItemEnv)
    (d : Backend.S3ObjectData) (ex : Js.JsObj)
    (h1 : env.s3Get = Except.ok d) (h2 : d.bodyIsBuffer = true)
    (h3 : env.gemini = Except.ok ex) (h4 : env.saveMain = none) :
    ∃ item ticketVal,
      Backend.processItem rec env
        = (Backend.ItemResult.success rec.key ticketVal, [item]) ∧
      Js.objGet item "TicketId" = some ticketVal ∧
      (∀ v, Js.objGet ex "invoiceId" = some v → Js.jsTruthy (some v) = true →
        ticketVal = v) ∧
      (Js.jsTruthy (Js.objGet ex "invoiceId") = false →
        ticketVal = Js.JsVal.str ("fallback-" ++ rec.key ++ "-" ++ toString env.now) ∧
        Js.strIncludes ("fallback-" ++ rec.key ++ "-" ++ toString env.now) rec.key = true) := by
  cases hbv : Js.jsTruthy (Js.objGet ex "invoiceId") with
  | true =>
    refine ⟨Js.objSet ex "TicketId" ((Js.objGet ex "invoiceId").getD Js.JsVal.null),
      (Js.objGet ex "invoiceId").getD Js.JsVal.null, ?_, objGet_objSet_self _ _ _, ?_, ?_⟩
    · simp [Backend.processItem, h1, h2, h3, h4, hbv]
    · intro v hv _; rw [hv]; rfl
    · intro hf; exact absurd hf (by decide)
  | false =>
    refine ⟨Js.objSet ex "TicketId"
        (Js.JsVal.str ("fallback-" ++ rec.key ++ "-" ++ toString env.now)),
      Js.JsVal.str ("fallback-" ++ rec.key ++ "-" ++ toString env.now), ?_,
      objGet_objSet_self _ _ _, ?_, ?_⟩
    · simp [Backend.processItem, h1, h2, h3, h4, hbv]
    · intro v hv htv; rw [hv] at hbv; rw [htv] at hbv; cases hbv
    · intro _
      refine ⟨rfl, ?_⟩
      show Js.occursIn rec.key.data ("fallback-" ++ rec.key ++ "-" ++ toString env.now).data
        = true
      rw [string_append_data, string_append_data, string_append_data,
        List.append_assoc, List.append_assoc]
      exact occursIn_mid _ _ _

/-- Witness for C2 at two concrete items: one whose extraction carries
`invoiceId = "INV-42"` (persisted `TicketId` is `"INV-42"`), exercised through
the theorem's first implication, and whose fallback implication is vacuous. -/
theorem c2_ticketid_invoice_or_fallback_witness :
    ∃ item ticketVal,
      Backend.processItem ⟨"pdf-bucket", "att.pdf"⟩
          { s3Get := Except.ok ⟨true, some 10, some "application/pdf"⟩,
            gemini := Except.ok [("invoiceId", Js.JsVal.str "INV-42"),
                                 ("grandTotal", Js.JsVal.num 100)],
            saveMain := none, saveError := none, now := 5, nowIso := "2026-01-01T00:00:00Z" }
        = (Backend.ItemResult.success "att.pdf" ticketVal, [item]) ∧
      Js.objGet item "TicketId" = some ticketVal ∧
      (∀ v, Js.objGet [("invoiceId", Js.JsVal.str "INV-42"),
                       ("grandTotal", Js.JsVal.num 100)] "invoiceId" = some v →
        Js.jsTruthy (some v) = true → ticketVal = v) ∧
      (Js.jsTruthy (Js.objGet [("invoiceId", Js.JsVal.str "INV-42"),
                               ("grandTotal", Js.JsVal.num 100)] "invoiceId") = false →
        ticketVal = Js.JsVal.str ("fallback-" ++ "att.pdf" ++ "-" ++ toString (5 : Nat)) ∧
        Js.strIncludes ("fallback-" ++ "att.pdf" ++ "-" ++ toString (5 : Nat)) "att.pdf"
          = true) :=
  c2_ticketid_invoice_or_fallback ⟨"pdf-bucket", "att.pdf"⟩
    { s3Get := Except.ok ⟨true, some 10, some "application/pdf"⟩,
      gemini := Except.ok [("invoiceId", Js.JsVal.str "INV-42"),
                           ("grandTotal", Js.JsVal.num 100)],
      saveMain := none, saveError := none, now := 5, nowIso := "2026-01-01T00:00:00Z" }
    ⟨true, some 10, some "application/pdf"⟩
    [("invoiceId", Js.JsVal.str "INV-42"), ("grandTotal", Js.JsVal.num 100)]
    rfl rfl rfl rfl

/-- C3: for every item whose fetch or extraction fails, exactly one DynamoDB
write is attempted — an Error Record whose `TicketId` is
`error-<key>-<timestamp>` and non-empty, whose `Status` is
`"Error-ProcessingFailed"`, which carries the failing error's message, a stack
trace truncated to at most 1000 characters (or null), provenance fields and a
timestamp; the outcome of that write (`env.saveError`) never changes what the
item returns — the per-item failure result is produced either way. -/
theorem c3_error_record_on_failure (rec : Backend.EmailRecord) (env : Backend.ItemEnv)
    (h : Backend.fetchOrExtractFails env = true) :
    ∃ errItem msg,
      Backend.processItem rec env
        = (Backend.ItemResult.failure rec.key msg
            ("error-" ++ rec.key ++ "-" ++ toString env.now), [errItem]) ∧
      Js.objGet errItem "TicketId"
        = some (Js.JsVal.str ("error-" ++ rec.key ++ "-" ++ toString env.now)) ∧
      ("error-" ++ rec.key ++ "-" ++ toString env.now) ≠ "" ∧
      Js.objGet errItem "Status" = some (Js.JsVal.str "Error-ProcessingFailed") ∧
      Js.objGet errItem "ErrorDetails" = some (Js.JsVal.str msg) ∧
      Js.objGet errItem "S3Bucket" = some (Js.JsVal.str rec.bucket) ∧
      Js.objGet errItem "S3Key" = some (Js.JsVal.str rec.key) ∧
      Js.objGet errItem "Timestamp" = some (Js.JsVal.str env.nowIso) ∧
      (∀ v, Js.objGet errItem "ErrorStack" = some v →
        v = Js.JsVal.null ∨ ∃ st, v = Js.JsVal.str st ∧ st.length ≤ 1000) ∧
      (∀ e, env.s3Get = Except.error e → msg = e.message) ∧
      (∀ d e, env.s3Get = Except.ok d → d.bodyIsBuffer = true →
        env.gemini = Except.error e → msg = e.message) ∧
      (∀ se, Backend.processItem rec { env with saveError := se }
        = Backend.processItem rec env) := by
  obtain ⟨sg, gm, sm, sE, n, ni⟩ := env
  cases sg with
  | error e =>
    refine ⟨Backend.errorRecordItem rec ⟨Except.error e, gm, sm, sE, n, ni⟩ none e,
      e.message, rfl, rfl, error_prefix_ne_empty _ _, rfl, rfl, rfl, rfl, rfl,
      errorRecordItem_stack rec ⟨Except.error e, gm, sm, sE, n, ni⟩ none e,
      ?_, ?_, fun se => rfl⟩
    · intro e' he
      exact congrArg Js.JsError.message (Except.error.inj he)
    · intro d' e' hok hbuf hg
      exact Except.noConfusion hok
  | ok d =>
    obtain ⟨bib, cl, ct⟩ := d
    cases bib with
    | false =>
      refine ⟨Backend.errorRecordItem rec ⟨Except.ok ⟨false, cl, ct⟩, gm, sm, sE, n, ni⟩
          (some ⟨false, cl, ct⟩)
          { name := "Error", message := "S3 object body is not a Buffer.", stack := none },
        "S3 object body is not a Buffer.", rfl, rfl,
        error_prefix_ne_empty _ _, rfl, rfl, rfl, rfl, rfl,
        errorRecordItem_stack rec ⟨Except.ok ⟨false, cl, ct⟩, gm, sm, sE, n, ni⟩
          (some ⟨false, cl, ct⟩) _, ?_, ?_, fun se => rfl⟩
      · intro e' he
        exact Except.noConfusion he
      · intro d' e' hok hbuf hg
        rw [← Except.ok.inj hok] at hbuf
        simp at hbuf
    | true =>
      cases gm with
      | ok ex =>
        exfalso
        simp [Backend.fetchOrExtractFails] at h
      | error e =>
        refine ⟨Backend.errorRecordItem rec
            ⟨Except.ok ⟨true, cl, ct⟩, Except.error e, sm, sE, n, ni⟩
            (some ⟨true, cl, ct⟩) e, e.message, rfl, rfl,
          error_prefix_ne_empty _ _, rfl, rfl, rfl, rfl, rfl,
          errorRecordItem_stack rec ⟨Except.ok ⟨true, cl, ct⟩, Except.error e, sm, sE, n, ni⟩
            (some ⟨true, cl, ct⟩) e, ?_, ?_, fun se => rfl⟩
        · intro e' he
          exact Except.noConfusion he
        · intro d' e' hok hbuf hg'
          exact congrArg Js.JsError.message (Except.error.inj hg')

/-- Witness for C3 at a concrete extraction failure (Gemini throws, with a
long stack trace; the error-record write itself also fails and is ignored). -/
theorem c3_error_record_on_failure_witness :
    ∃ errItem msg,
      Backend.processItem ⟨"pdf-bucket", "att.pdf"⟩
          { s3Get := Except.ok ⟨true, some 10, some "application/pdf"⟩,
            gemini := Except.error
              { name := "Error", message := "Gemini down", stack := some "trace" },
            saveMain := none,
            saveError := some { name := "Error", message := "Dynamo down", stack := none },
            now := 5, nowIso := "2026-01-01T00:00:00Z" }
        = (Backend.ItemResult.failure "att.pdf" msg
            ("error-" ++ "att.pdf" ++ "-" ++ toString (5 : Nat)), [errItem]) ∧
      Js.objGet errItem "TicketId"
        = some (Js.JsVal.str ("error-" ++ "att.pdf" ++ "-" ++ toString (5 : Nat))) ∧
      ("error-" ++ "att.pdf" ++ "-" ++ toString (5 : Nat)) ≠ "" ∧
      Js.objGet errItem "Status" = some (Js.JsVal.str "Error-ProcessingFailed") ∧
      Js.objGet errItem "ErrorDetails" = some (Js.JsVal.str msg) ∧
      Js.objGet errItem "S3Bucket" = some (Js.JsVal.str "pdf-bucket") ∧
      Js.objGet errItem "S3Key" = some (Js.JsVal.str "att.pdf") ∧
      Js.objGet errItem "Timestamp" = some (Js.JsVal.str "2026-01-01T00:00:00Z") ∧
      (∀ v, Js.objGet errItem "ErrorStack" = some v →
        v = Js.JsVal.null ∨ ∃ st, v = Js.JsVal.str st ∧ st.length ≤ 1000) ∧
      (∀ e, ({ s3Get := Except.ok ⟨true, some 10, some "application/pdf"⟩,
               gemini := Except.error
                 { name := "Error", message := "Gemini down", stack := some "trace" },
               saveMain := none,
               saveError := some { name := "Error", message := "Dynamo down", stack := none },
               now := 5, nowIso := "2026-01-01T00:00:00Z" } : Backend.ItemEnv).s3Get
          = Except.error e → msg = e.message) ∧
      (∀ d e, ({ s3Get := Except.ok ⟨true, some 10, some "application/pdf"⟩,
                 gemini := Except.error
                   { name := "Error", message := "Gemini down", stack := some "trace" },
                 saveMain := none,
                 saveError := some { name := "Error", message := "Dynamo down", stack := none },
                 now := 5, nowIso := "2026-01-01T00:00:00Z" } : Backend.ItemEnv).s3Get
          = Except.ok d → d.bodyIsBuffer = true →
        ({ s3Get := Except.ok ⟨true, some 10, some "application/pdf"⟩,
           gemini := Except.error
             { name := "Error", message := "Gemini down", stack := some "trace" },
           saveMain := none,
           saveError := some { name := "Error", message := "Dynamo down", stack := none },
           now := 5, nowIso := "2026-01-01T00:00:00Z" } : Backend.ItemEnv).gemini
          = Except.error e → msg = e.message) ∧
      (∀ se, Backend.processItem ⟨"pdf-bucket", "att.pdf"⟩
          { s3Get := Except.ok ⟨true, some 10, some "application/pdf"⟩,
            gemini := Except.error
              { name := "Error", message := "Gemini down", stack := some "trace" },
            saveMain := none, saveError := se,
            now := 5, nowIso := "2026-01-01T00:00:00Z" }
        = Backend.processItem ⟨"pdf-bucket", "att.pdf"⟩
          { s3Get := Except.ok ⟨true, some 10, some "application/pdf"⟩,
            gemini := Except.error
              { name := "Error", message := "Gemini down", stack := some "trace" },
            saveMain := none,
            saveError := some { name := "Error", message := "Dynamo down", stack := none },
            now := 5, nowIso := "2026-01-01T00:00:00Z" }) :=
  c3_error_record_on_failure ⟨"pdf-bucket", "att.pdf"⟩
    { s3Get := Except.ok ⟨true, some 10, some "application/pdf"⟩,
      gemini := Except.error
        { name := "Error", message := "Gemini down", stack := some "trace" },
      saveMain := none,
      saveError := some { name := "Error", message := "Dynamo down", stack := none },
      now := 5, nowIso := "2026-01-01T00:00:00Z" }
    rfl

theorem filter_isPut_uploadOps (bn mid : String) (now : Nat)
    (atts : List MailIngestor.Attachment) :
    (MailIngestor.uploadOps bn mid now atts).filter MailIngestor.StorageOp.isPut
      = MailIngestor.uploadOps bn mid now atts := by
  unfold MailIngestor.uploadOps
  induction atts with
  | nil => rfl
  | cons a l ih =>
    by_cases hp : MailIngestor.isPdfAttachment a
    · simp [List.filterMap_cons, hp, List.filter_cons, MailIngestor.StorageOp.isPut, ih]
    · simp [List.filterMap_cons, hp, ih]

theorem length_uploadOps (bn mid : String) (now : Nat)
    (atts : List MailIngestor.Attachment) :
    (MailIngestor.uploadOps bn mid now atts).length
      = (atts.filter MailIngestor.isPdfAttachment).length := by
  unfold MailIngestor.uploadOps
  exact length_filterMap_ite _ _ atts

/-- C6: for a valid raw-message event whose parsed email has some attachments,
the Mail Ingestor performs exactly one blob write per attachment that
qualifies as PDF (declared content-type `application/pdf`, or a filename with
a case-insensitive `.pdf` suffix) and none for the others, finishing with
status 200; each qualifying attachment is stored under
`attachments/<messageId>/<sanitizedFilename>`, and a missing declared
filename falls back to `attachment-<messageId>-<timestamp>.pdf`. -/
theorem c6_ingest_stores_exactly_pdfs (env : MailIngestor.IngestEnv)
    (r : MailIngestor.IngestRecord) (rest : List MailIngestor.IngestRecord)
    (mid sb sk : String) (email : MailIngestor.ParsedEmail)
    (h1 : MailIngestor.sesMessageId r = some mid)
    (h2 : MailIngestor.s3Source r = some (sb, sk))
    (h3 : env.fetchParse = Except.ok email)
    (h4 : env.putFails = none) :
    (MailIngestor.handler env ⟨r :: rest⟩).1.statusCode = 200 ∧
    (((MailIngestor.handler env ⟨r :: rest⟩).2.filter MailIngestor.StorageOp.isPut).length
      = (email.attachments.filter MailIngestor.isPdfAttachment).length) ∧
    (∀ a, a ∈ email.attachments → MailIngestor.isPdfAttachment a = true →
      MailIngestor.StorageOp.putOp (MailIngestor.attachmentBucketName env.envBucket)
          (MailIngestor.attachmentKey a mid env.now) a.contentType
        ∈ (MailIngestor.handler env ⟨r :: rest⟩).2) ∧
    (∀ a, a.filename = none →
      MailIngestor.attachmentFilename a mid env.now
        = "attachment-" ++ mid ++ "-" ++ toString env.now ++ ".pdf") := by
  have heq : MailIngestor.handler env ⟨r :: rest⟩
      = ({ statusCode := 200,
           body := "Successfully processed email " ++ mid ++ ". "
             ++ toString (MailIngestor.uploadOps
                  (MailIngestor.attachmentBucketName env.envBucket)
                  mid env.now email.attachments).length ++ " PDF(s) uploaded." },
         MailIngestor.StorageOp.getOp sb sk
           :: MailIngestor.uploadOps (MailIngestor.attachmentBucketName env.envBucket)
                mid env.now email.attachments) := by
    simp [MailIngestor.handler, attachmentBucketName_ne, h1, h2, h3, h4]
  refine ⟨by rw [heq], ?_, ?_, ?_⟩
  · rw [heq]
    simp [List.filter_cons, MailIngestor.StorageOp.isPut, filter_isPut_uploadOps,
      length_uploadOps]
  · intro a ha hpdf
    rw [heq]
    apply List.mem_cons_of_mem
    unfold MailIngestor.uploadOps
    exact List.mem_filterMap.mpr ⟨a, ha, by simp [hpdf]⟩
  · intro a hfn
    simp [MailIngestor.attachmentFilename, hfn]

/-- Witness for C6: an email with one `invoice.pdf` (PDF) and one `logo.png`
attachment under message id `M1` stores exactly one blob, at
`attachments/M1/invoice.pdf`. -/
theorem c6_ingest_stores_exactly_pdfs_witness :
    (MailIngestor.handler
        { envBucket := none,
          fetchParse := Except.ok ⟨[⟨some "invoice.pdf", some "application/pdf"⟩,
                                    ⟨some "logo.png", some "image/png"⟩]⟩,
          putFails := none, now := 9 }
        ⟨[{ ses := some ⟨some ⟨some "M1"⟩⟩,
            s3 := some ⟨some ⟨"raw-bucket"⟩, some ⟨"raw/key.eml"⟩⟩ }]⟩).1.statusCode = 200 ∧
    (((MailIngestor.handler
        { envBucket := none,
          fetchParse := Except.ok ⟨[⟨some "invoice.pdf", some "application/pdf"⟩,
                                    ⟨some "logo.png", some "image/png"⟩]⟩,
          putFails := none, now := 9 }
        ⟨[{ ses := some ⟨some ⟨some "M1"⟩⟩,
            s3 := some ⟨some ⟨"raw-bucket"⟩, some ⟨"raw/key.eml"⟩⟩ }]⟩).2.filter
          MailIngestor.StorageOp.isPut).length
      = ([⟨some "invoice.pdf", some "application/pdf"⟩,
          (⟨some "logo.png", some "image/png"⟩ : MailIngestor.Attachment)].filter
            MailIngestor.isPdfAttachment).length) ∧
    (∀ a, a ∈ [⟨some "invoice.pdf", some "application/pdf"⟩,
               (⟨some "logo.png", some "image/png"⟩ : MailIngestor.Attachment)] →
      MailIngestor.isPdfAttachment a = true →
      MailIngestor.StorageOp.putOp (MailIngestor.attachmentBucketName none)
          (MailIngestor.attachmentKey a "M1" 9) a.contentType
        ∈ (MailIngestor.handler
            { envBucket := none,
              fetchParse := Except.ok ⟨[⟨some "invoice.pdf", some "application/pdf"⟩,
                                        ⟨some "logo.png", some "image/png"⟩]⟩,
              putFails := none, now := 9 }
            ⟨[{ ses := some ⟨some ⟨some "M1"⟩⟩,
                s3 := some ⟨some ⟨"raw-bucket"⟩, some ⟨"raw/key.eml"⟩⟩ }]⟩).2) ∧
    (∀ a, MailIngestor.Attachment.filename a = none →
      MailIngestor.attachmentFilename a "M1" 9
        = "attachment-" ++ "M1" ++ "-" ++ toString (9 : Nat) ++ ".pdf") :=
  c6_ingest_stores_exactly_pdfs
    { envBucket := none,
      fetchParse := Except.ok ⟨[⟨some "invoice.pdf", some "application/pdf"⟩,
                                ⟨some "logo.png", some "image/png"⟩]⟩,
      putFails := none, now := 9 }
    { ses := some ⟨some ⟨some "M1"⟩⟩,
      s3 := some ⟨some ⟨"raw-bucket"⟩, some ⟨"raw/key.eml"⟩⟩ }
    [] "M1" "raw-bucket" "raw/key.eml"
    ⟨[⟨some "invoice.pdf", some "application/pdf"⟩, ⟨some "logo.png", some "image/png"⟩]⟩
    rfl rfl rfl rfl

/-- C4 (code bug): the extract operation does fail with an error in each of
the four situations, and for missing model configuration the error carries
the intended message; but in the malformed/empty-response, JSON-decode
failure and declining (safety-block) situations the error that escapes is
`ReferenceError: result is not defined` — the catch block of
`processPDFWithGemini` dereferences `result`, a `const` of the sibling try
block scope — so the thrown error names neither the declining reason nor the
underlying failure's message nor the source key, contradicting the claim. -/
theorem c4_extraction_errors_are_reference_errors :
    (Backend.processPDFWithGemini
        { modelConfigured := false, generate := Except.ok none, parsed := Except.ok [],
          nowIso := "T" } (some "pdf-bucket") (some "inv.pdf")
      = Except.error
          { name := "Error",
            message := "Gemini model is not initialized. Check API Key and SDK setup.",
            stack := none }) ∧
    (Backend.processPDFWithGemini
        { modelConfigured := true,
          generate := Except.ok (some { candidates := some [], text := "" }),
          parsed := Except.ok [], nowIso := "T" } (some "pdf-bucket") (some "inv.pdf")
      = Except.error Backend.resultNotDefined) ∧
    (Backend.processPDFWithGemini
        { modelConfigured := true,
          generate := Except.ok (some { candidates := some [{ content := some { parts := some [⟨()⟩] } }],
                                        text := "not json" }),
          parsed := Except.error { name := "SyntaxError",
                                   message := "Unexpected token o in JSON at position 1",
                                   stack := none },
          nowIso := "T" } (some "pdf-bucket") (some "inv.pdf")
      = Except.error Backend.resultNotDefined) ∧
    (Backend.processPDFWithGemini
        { modelConfigured := true,
          generate := Except.error { name := "Error",
                                     message := "Candidate was blocked due to SAFETY",
                                     stack := none },
          parsed := Except.ok [], nowIso := "T" } (some "pdf-bucket") (some "inv.pdf")
      = Except.error Backend.resultNotDefined) ∧
    Backend.resultNotDefined.message = "result is not defined" ∧
    Js.strIncludes Backend.resultNotDefined.message "inv.pdf" = false ∧
    Js.strIncludes Backend.resultNotDefined.message "SAFETY" = false ∧
    Js.strIncludes Backend.resultNotDefined.message
      "Received an invalid or empty response structure from Gemini API." = false :=
  ⟨rfl, rfl, rfl, rfl, rfl, rfl, rfl, rfl⟩
